import Mathlib

/-!
Shallow embedding of the university management system in `src/index.ts`
(class `UniversityManagementSystem`).  TypeScript `Date` values are modelled
as abstract `Nat` timestamps supplied to each mutating operation as a `now`
argument; the in-memory object state is the structure `UMS`, and each method
becomes a pure function returning its result together with the next state.
Thrown `Error`s become `Except UMSError` values.
-/

/-- `enum StudentStatus` from the source. -/
inductive StudentStatus
  | Active
  | Academic_Leave
  | Graduated
  | Expelled
deriving DecidableEq, Repr

/-- `enum CourseType` from the source. -/
inductive CourseType
  | Mandatory
  | Optional
  | Special
deriving DecidableEq, Repr

/-- `enum Semester` from the source. -/
inductive Semester
  | First
  | Second
deriving DecidableEq, Repr

/-- `enum GradeEnum` from the source (numeric enum: Excellent=5, Good=4,
Satisfactory=3, Unsatisfactory=2). -/
inductive GradeEnum
  | Excellent
  | Good
  | Satisfactory
  | Unsatisfactory
deriving DecidableEq, Repr

/-- The numeric value of each `GradeEnum` member, as in the source. -/
def GradeEnum.val : GradeEnum → Nat
  | .Excellent => 5
  | .Good => 4
  | .Satisfactory => 3
  | .Unsatisfactory => 2

/-- `enum Faculty` from the source. -/
inductive Faculty
  | Computer_Science
  | Economics
  | Law
  | Engineering
deriving DecidableEq, Repr

/-- `interface Student` from the source. -/
structure Student where
  id : Nat
  fullName : String
  faculty : Faculty
  year : Nat
  status : StudentStatus
  enrollmentDate : Nat
  groupNumber : String
deriving DecidableEq, Repr

/-- `interface Course` from the source. -/
structure Course where
  id : Nat
  name : String
  type : CourseType
  credits : Nat
  semester : Semester
  faculty : Faculty
  maxStudents : Nat
deriving DecidableEq, Repr

/-- `interface Grade` from the source; the nullable `grade` field is an
`Option GradeEnum`. -/
structure Grade where
  studentId : Nat
  courseId : Nat
  grade : Option GradeEnum
  date : Nat
  semester : Semester
deriving DecidableEq, Repr

/-- The input of `enrollStudent`: `Omit<Student, "id">` in the source. -/
structure StudentInput where
  fullName : String
  faculty : Faculty
  year : Nat
  status : StudentStatus
  enrollmentDate : Nat
  groupNumber : String
deriving DecidableEq, Repr

/-- The errors thrown by the source methods, one constructor per distinct
`throw new Error(...)` message. -/
inductive UMSError
  | InvalidReference
  | FacultyMismatch
  | CourseFull
  | NotRegistered
  | IllegalTransition
deriving DecidableEq, Repr

/-- The private state of `class UniversityManagementSystem`. -/
structure UMS where
  students : List Student
  courses : List Course
  grades : List Grade
  nextStudentId : Nat
  nextCourseId : Nat
deriving DecidableEq, Repr

/-- The initial state of the class: empty collections, both counters at 1. -/
def initUMS : UMS :=
  { students := [], courses := [], grades := [], nextStudentId := 1, nextCourseId := 1 }

/-- `enrollStudent`: assign the next id, append, return the new record. -/
def UMS.enrollStudent (s : UMS) (input : StudentInput) : Student × UMS :=
  let newStudent : Student :=
    { id := s.nextStudentId, fullName := input.fullName, faculty := input.faculty,
      year := input.year, status := input.status,
      enrollmentDate := input.enrollmentDate, groupNumber := input.groupNumber }
  (newStudent,
    { s with students := s.students ++ [newStudent],
             nextStudentId := s.nextStudentId + 1 })

/-- `registerForCourse`: look up course and student, check faculty match and
capacity, then append a new ungraded `Grade` record. -/
def UMS.registerForCourse (s : UMS) (studentId courseId : Nat) (now : Nat) :
    Except UMSError Unit × UMS :=
  let course := s.courses.find? (fun c => c.id == courseId)
  let student := s.students.find? (fun x => x.id == studentId)
  match course, student with
  | none, _ => (Except.error UMSError.InvalidReference, s)
  | some _, none => (Except.error UMSError.InvalidReference, s)
  | some c, some st =>
    if c.faculty ≠ st.faculty then (Except.error UMSError.FacultyMismatch, s)
    else if (s.grades.filter (fun g => g.courseId == courseId)).length ≥ c.maxStudents then
      (Except.error UMSError.CourseFull, s)
    else
      (Except.ok (),
        { s with grades := s.grades ++
            [{ studentId := studentId, courseId := courseId, grade := none,
               date := now, semester := c.semester }] })

/-- In-place mutation of the first grade record matching both ids, as done by
`setGrade` through the reference returned by `find`. -/
def setGradeInList (l : List Grade) (studentId courseId : Nat)
    (grade : GradeEnum) (now : Nat) : List Grade :=
  match l with
  | [] => []
  | g :: rest =>
    if g.studentId == studentId && g.courseId == courseId then
      { g with grade := some grade, date := now } :: rest
    else
      g :: setGradeInList rest studentId courseId grade now

/-- `setGrade`: find the first registration for the pair; fail with
`NotRegistered` if absent, otherwise overwrite its grade and date. -/
def UMS.setGrade (s : UMS) (studentId courseId : Nat) (grade : GradeEnum)
    (now : Nat) : Except UMSError Unit × UMS :=
  match s.grades.find? (fun g => g.studentId == studentId && g.courseId == courseId) with
  | none => (Except.error UMSError.NotRegistered, s)
  | some _ =>
    (Except.ok (), { s with grades := setGradeInList s.grades studentId courseId grade now })

/-- In-place mutation of the first student record matching the id, as done by
`updateStudentStatus` through the reference returned by `find`. -/
def updateStatusInList (l : List Student) (studentId : Nat)
    (newStatus : StudentStatus) : List Student :=
  match l with
  | [] => []
  | st :: rest =>
    if st.id == studentId then { st with status := newStatus } :: rest
    else st :: updateStatusInList rest studentId newStatus

/-- `updateStudentStatus`: find the student; fail with `InvalidReference` if
absent, with `IllegalTransition` if the student is Expelled and the new status
is not Academic_Leave; otherwise overwrite the status. -/
def UMS.updateStudentStatus (s : UMS) (studentId : Nat)
    (newStatus : StudentStatus) : Except UMSError Unit × UMS :=
  match s.students.find? (fun x => x.id == studentId) with
  | none => (Except.error UMSError.InvalidReference, s)
  | some st =>
    if st.status = StudentStatus.Expelled ∧ newStatus ≠ StudentStatus.Academic_Leave then
      (Except.error UMSError.IllegalTransition, s)
    else
      (Except.ok (), { s with students := updateStatusInList s.students studentId newStatus })

/-- `getStudentsByFaculty`. -/
def UMS.getStudentsByFaculty (s : UMS) (faculty : Faculty) : List Student :=
  s.students.filter (fun x => x.faculty == faculty)

/-- `getStudentGrades`. -/
def UMS.getStudentGrades (s : UMS) (studentId : Nat) : List Grade :=
  s.grades.filter (fun g => g.studentId == studentId)

/-- `getAvailableCourses`. -/
def UMS.getAvailableCourses (s : UMS) (faculty : Faculty) (semester : Semester) :
    List Course :=
  s.courses.filter (fun c => c.faculty == faculty && c.semester == semester)

/-- The contribution `g.grade || 0` of one record to the running total in
`calculateAverageGrade`. -/
def gradeOrZero (g : Option GradeEnum) : ℚ :=
  match g with
  | none => 0
  | some x => (x.val : ℚ)

/-- `calculateAverageGrade`: mean of the non-null grades of the student's
records, 0 when there are none.  JavaScript numbers are modelled as `ℚ`. -/
def UMS.calculateAverageGrade (s : UMS) (studentId : Nat) : ℚ :=
  let studentGrades := s.grades.filter (fun g => g.studentId == studentId && g.grade.isSome)
  let total : ℚ := studentGrades.foldl (fun acc g => acc + gradeOrZero g.grade) 0
  if studentGrades.length ≠ 0 then total / (studentGrades.length : ℚ) else 0

/-- `getTopStudentsByFaculty`: students of the faculty whose average is at
least `GradeEnum.Excellent - 1`. -/
def UMS.getTopStudentsByFaculty (s : UMS) (faculty : Faculty) : List Student :=
  let studentsByFaculty := s.getStudentsByFaculty faculty
  studentsByFaculty.filter (fun st =>
    decide ((GradeEnum.Excellent.val : ℚ) - 1 ≤ s.calculateAverageGrade st.id))

deriving instance DecidableEq for Except

/-! Concrete data used by witnesses, mirroring the demo script in the source. -/

def stA : Student :=
  { id := 1, fullName := "Ivan Ivanov", faculty := Faculty.Computer_Science, year := 1,
    status := StudentStatus.Active, enrollmentDate := 0, groupNumber := "CS-101" }

def stB : Student :=
  { id := 2, fullName := "Maria Petrenko", faculty := Faculty.Economics, year := 2,
    status := StudentStatus.Expelled, enrollmentDate := 0, groupNumber := "ECO-201" }

def course1 : Course :=
  { id := 1, name := "Data Structures", type := CourseType.Mandatory, credits := 5,
    semester := Semester.First, faculty := Faculty.Computer_Science, maxStudents := 2 }

def demoState : UMS :=
  { students := [stA, stB], courses := [course1], grades := [],
    nextStudentId := 3, nextCourseId := 1 }

def demoGrade : Grade :=
  { studentId := 1, courseId := 1, grade := none, date := 0, semester := Semester.First }

def demoState2 : UMS :=
  { students := [stA, stB], courses := [course1], grades := [demoGrade],
    nextStudentId := 3, nextCourseId := 1 }

/-- C1: `getTopStudentsByFaculty` returns exactly the students of the faculty
whose average grade is at least 4 (the threshold `Excellent - 1` is inclusive,
so an average of exactly 4 qualifies and an average of 0 does not, since
`0 < 4`). -/
theorem getTopStudentsByFaculty_mem_iff (s : UMS) (f : Faculty) (st : Student) :
    st ∈ s.getTopStudentsByFaculty f ↔
      st ∈ s.students ∧ st.faculty = f ∧ (4 : ℚ) ≤ s.calculateAverageGrade st.id := by
  simp only [UMS.getTopStudentsByFaculty, UMS.getStudentsByFaculty, List.mem_filter,
    decide_eq_true_eq, beq_iff_eq, GradeEnum.val, and_assoc]
  norm_num

/-- C2: when the student and course exist and share a faculty,
`registerForCourse` fails with `CourseFull` exactly when the number of grade
records for that course already reaches `maxStudents`; below capacity it
succeeds and the course's registration count grows by one (so starting from
zero the first `maxStudents` registrations succeed and the next fails). -/
theorem registerForCourse_courseFull_iff (s : UMS) (sid cid now : Nat)
    (c : Course) (st : Student)
    (hc : s.courses.find? (fun x => x.id == cid) = some c)
    (hs : s.students.find? (fun x => x.id == sid) = some st)
    (hf : c.faculty = st.faculty) :
    ((s.registerForCourse sid cid now).1 = Except.error UMSError.CourseFull ↔
      c.maxStudents ≤ (s.grades.filter (fun g => g.courseId == cid)).length) ∧
    ((s.grades.filter (fun g => g.courseId == cid)).length < c.maxStudents →
      (s.registerForCourse sid cid now).1 = Except.ok () ∧
      ((s.registerForCourse sid cid now).2.grades.filter
          (fun g => g.courseId == cid)).length =
        (s.grades.filter (fun g => g.courseId == cid)).length + 1) := by
  constructor
  · by_cases hcap :
      c.maxStudents ≤ (s.grades.filter (fun g => g.courseId == cid)).length
    · simp [UMS.registerForCourse, hc, hs, hf, hcap]
    · simp [UMS.registerForCourse, hc, hs, hf, hcap]
  · intro hlt
    have hcap :
        ¬ c.maxStudents ≤ (s.grades.filter (fun g => g.courseId == cid)).length :=
      not_le.mpr hlt
    simp [UMS.registerForCourse, hc, hs, hf, hcap, List.filter_append]

/-- Witness for C2 at a concrete state: the course has capacity 2 and no
registrations yet, so registration succeeds and the count becomes 1. -/
theorem registerForCourse_courseFull_iff_witness :
    (demoState.registerForCourse 1 1 0).1 = Except.ok () ∧
    ((demoState.registerForCourse 1 1 0).2.grades.filter
        (fun g => g.courseId == 1)).length = 1 :=
  (registerForCourse_courseFull_iff demoState 1 1 0 course1 stA
    (by decide) (by decide) (by decide)).2 (by decide)

/-- C7: when the student and course both exist but their faculties differ,
`registerForCourse` fails with `FacultyMismatch` regardless of remaining
capacity, and the state is unchanged. -/
theorem registerForCourse_facultyMismatch (s : UMS) (sid cid now : Nat)
    (c : Course) (st : Student)
    (hc : s.courses.find? (fun x => x.id == cid) = some c)
    (hs : s.students.find? (fun x => x.id == sid) = some st)
    (hne : c.faculty ≠ st.faculty) :
    (s.registerForCourse sid cid now).1 = Except.error UMSError.FacultyMismatch ∧
    (s.registerForCourse sid cid now).2 = s := by
  simp [UMS.registerForCourse, hc, hs, hne]

/-- Witness for C7: student 2 (Economics) registering for course 1
(Computer_Science) is refused with `FacultyMismatch` even though the course
has free capacity; the faculty check fires before the capacity check. -/
theorem registerForCourse_facultyMismatch_witness :
    (demoState.registerForCourse 2 1 0).1 = Except.error UMSError.FacultyMismatch ∧
    (demoState.registerForCourse 2 1 0).2 = demoState :=
  registerForCourse_facultyMismatch demoState 2 1 0 course1 stB
    (by decide) (by decide) (by decide)

/-- C3: every failing operation leaves the whole state (students, courses,
grades, id counters) unchanged — validation precedes mutation in
`registerForCourse`, `setGrade` and `updateStudentStatus`. -/
theorem ops_error_preserve_state (s : UMS) :
    (∀ sid cid now e, (s.registerForCourse sid cid now).1 = Except.error e →
      (s.registerForCourse sid cid now).2 = s) ∧
    (∀ sid cid gr now e, (s.setGrade sid cid gr now).1 = Except.error e →
      (s.setGrade sid cid gr now).2 = s) ∧
    (∀ sid ns e, (s.updateStudentStatus sid ns).1 = Except.error e →
      (s.updateStudentStatus sid ns).2 = s) := by
  refine ⟨?_, ?_, ?_⟩
  · intro sid cid now e h
    simp only [UMS.registerForCourse] at h ⊢
    cases hc : s.courses.find? (fun c => c.id == cid) with
    | none => simp [hc]
    | some c =>
      cases hs : s.students.find? (fun x => x.id == sid) with
      | none => simp [hc, hs]
      | some st =>
        simp only [hc, hs] at h ⊢
        by_cases hf : c.faculty ≠ st.faculty
        · simp [hf]
        · by_cases hcap :
            (s.grades.filter (fun g => g.courseId == cid)).length ≥ c.maxStudents
          · simp [hf, hcap]
          · simp [hf, hcap] at h
  · intro sid cid gr now e h
    simp only [UMS.setGrade] at h ⊢
    cases hfind : s.grades.find? (fun g => g.studentId == sid && g.courseId == cid) with
    | none => simp [hfind]
    | some g => simp [hfind] at h
  · intro sid ns e h
    simp only [UMS.updateStudentStatus] at h ⊢
    cases hfind : s.students.find? (fun x => x.id == sid) with
    | none => simp [hfind]
    | some st =>
      simp only [hfind] at h ⊢
      by_cases hexp : st.status = StudentStatus.Expelled ∧ ns ≠ StudentStatus.Academic_Leave
      · simp [hexp]
      · simp [hexp] at h

/-- Witness for C3: grading an unregistered pair fails and the state is
exactly the one before the call. -/
theorem ops_error_preserve_state_witness :
    (demoState.setGrade 2 1 GradeEnum.Good 0).2 = demoState :=
  (ops_error_preserve_state demoState).2.1 2 1 GradeEnum.Good 0
    UMSError.NotRegistered (by decide)

/-- Folding `acc + gradeOrZero` starting from `a` adds the sum of the mapped
values to `a`. -/
lemma foldl_gradeOrZero (l : List Grade) (a : ℚ) :
    l.foldl (fun acc g => acc + gradeOrZero g.grade) a =
      a + (l.map (fun g => gradeOrZero g.grade)).sum := by
  induction l generalizing a with
  | nil => simp
  | cons g rest ih => simp [List.foldl_cons, ih, add_assoc]

/-- On records with a non-null grade, `gradeOrZero` never takes its `0`
branch: the mapped values agree with the numeric values of the grades
extracted by `filterMap`. -/
lemma grade_values_eq (l : List Grade) :
    (l.filter (fun g => g.grade.isSome)).map (fun g => gradeOrZero g.grade) =
      (l.filterMap (fun g => g.grade)).map (fun x => (x.val : ℚ)) := by
  induction l with
  | nil => rfl
  | cons g rest ih =>
    cases hg : g.grade with
    | none => simp [List.filter_cons, List.filterMap_cons, hg, ih]
    | some x =>
      simp [List.filter_cons, List.filterMap_cons, hg, ih]
      rfl

/-- Filtering on both ids-and-graded at once is filtering the student's
records for graded ones. -/
lemma filter_studentGraded (l : List Grade) (sid : Nat) :
    l.filter (fun g => g.studentId == sid && g.grade.isSome) =
      (l.filter (fun g => g.studentId == sid)).filter (fun g => g.grade.isSome) := by
  induction l with
  | nil => rfl
  | cons g rest ih =>
    by_cases hsid : g.studentId == sid
    · by_cases hg : g.grade.isSome <;> simp [List.filter_cons, hsid, hg, ih]
    · simp [List.filter_cons, hsid, ih]

/-- `setGradeInList` on a list whose prefix has no match rewrites exactly the
first matching record (grade overwritten, date reset) and keeps everything
else. -/
lemma setGradeInList_append (sid cid : Nat) (gr : GradeEnum) (now : Nat)
    (l1 : List Grade) (g0 : Grade) (l2 : List Grade)
    (hnot : ∀ x ∈ l1, ¬((x.studentId == sid && x.courseId == cid) = true))
    (hp : (g0.studentId == sid && g0.courseId == cid) = true) :
    setGradeInList (l1 ++ g0 :: l2) sid cid gr now =
      l1 ++ { g0 with grade := some gr, date := now } :: l2 := by
  induction l1 with
  | nil => simp [setGradeInList, hp]
  | cons x rest ih =>
    have hx : ¬((x.studentId == sid && x.courseId == cid) = true) :=
      hnot x (by simp)
    have ih2 := ih (fun y hy => hnot y (by simp [hy]))
    simp [setGradeInList, hx, ih2]

/-- If some record in the state matches the pair, `setGrade` succeeds. -/
lemma setGrade_ok_of_mem (s : UMS) (sid cid : Nat) (gr : GradeEnum) (now : Nat)
    (g : Grade) (hg : g ∈ s.grades) (h1 : g.studentId = sid)
    (h2 : g.courseId = cid) :
    (s.setGrade sid cid gr now).1 = Except.ok () := by
  have hsome : (s.grades.find? (fun x => x.studentId == sid && x.courseId == cid)).isSome :=
    List.find?_isSome.mpr ⟨g, hg, by simp [h1, h2]⟩
  obtain ⟨g0, hfind⟩ := Option.isSome_iff_exists.mp hsome
  simp [UMS.setGrade, hfind]

/-- C5: `setGrade` fails with `NotRegistered` exactly when no grade record
matches the pair; when one exists it succeeds, overwrites the grade and date
of the first matching record only, leaves students and courses untouched,
and a repeated call for the same pair succeeds again (overwrite without
restriction). -/
theorem setGrade_spec (s : UMS) (sid cid : Nat) (gr : GradeEnum) (now : Nat) :
    ((s.setGrade sid cid gr now).1 = Except.error UMSError.NotRegistered ↔
      ∀ g ∈ s.grades, ¬(g.studentId = sid ∧ g.courseId = cid)) ∧
    ((∃ g ∈ s.grades, g.studentId = sid ∧ g.courseId = cid) →
      (s.setGrade sid cid gr now).1 = Except.ok () ∧
      (s.setGrade sid cid gr now).2.students = s.students ∧
      (s.setGrade sid cid gr now).2.courses = s.courses ∧
      (∃ l1 g0 l2, s.grades = l1 ++ g0 :: l2 ∧
        (∀ x ∈ l1, ¬(x.studentId = sid ∧ x.courseId = cid)) ∧
        g0.studentId = sid ∧ g0.courseId = cid ∧
        (s.setGrade sid cid gr now).2.grades =
          l1 ++ { g0 with grade := some gr, date := now } :: l2) ∧
      (∀ gr2 now2,
        ((s.setGrade sid cid gr now).2.setGrade sid cid gr2 now2).1 =
          Except.ok ())) := by
  constructor
  · cases hfind : s.grades.find? (fun g => g.studentId == sid && g.courseId == cid) with
    | none =>
      have hall := List.find?_eq_none.mp hfind
      refine iff_of_true (by simp [UMS.setGrade, hfind]) ?_
      intro g hg hco
      exact hall g hg (by simp [hco.1, hco.2])
    | some g0 =>
      have hpids : g0.studentId = sid ∧ g0.courseId = cid := by
        have := List.find?_some hfind
        simpa using this
      have hmem := List.mem_of_find?_eq_some hfind
      refine iff_of_false ?_ ?_
      · have hres : (s.setGrade sid cid gr now).1 = Except.ok () := by
          simp [UMS.setGrade, hfind]
        rw [hres]
        intro hcontra
        cases hcontra
      · intro hall
        exact hall g0 hmem hpids
  · rintro ⟨g, hg, h1, h2⟩
    have hsome : (s.grades.find? (fun x => x.studentId == sid && x.courseId == cid)).isSome :=
      List.find?_isSome.mpr ⟨g, hg, by simp [h1, h2]⟩
    obtain ⟨g0, hfind⟩ := Option.isSome_iff_exists.mp hsome
    have hpids : g0.studentId = sid ∧ g0.courseId = cid := by
      have := List.find?_some hfind
      simpa using this
    obtain ⟨hpb, l1, l2, hl, hpre⟩ := List.find?_eq_some.mp hfind
    have hnot1 : ∀ x ∈ l1, ¬((x.studentId == sid && x.courseId == cid) = true) := by
      intro x hx
      have := hpre x hx
      simp only [Bool.not_eq_eq_eq_not, Bool.not_true] at this
      simp [this]
    have hset := setGradeInList_append sid cid gr now l1 g0 l2 hnot1 hpb
    have hgrades : (s.setGrade sid cid gr now).2.grades =
        l1 ++ { g0 with grade := some gr, date := now } :: l2 := by
      have hbase : (s.setGrade sid cid gr now).2.grades =
          setGradeInList s.grades sid cid gr now := by
        simp [UMS.setGrade, hfind]
      rw [hbase, hl]
      exact hset
    refine ⟨setGrade_ok_of_mem s sid cid gr now g hg h1 h2,
      by simp [UMS.setGrade, hfind], by simp [UMS.setGrade, hfind],
      ⟨l1, g0, l2, hl, ?_, hpids.1, hpids.2, hgrades⟩, ?_⟩
    · intro x hx hco
      exact hnot1 x hx (by simp [hco.1, hco.2])
    · intro gr2 now2
      have hupd : ({ g0 with grade := some gr, date := now } : Grade) ∈
          (s.setGrade sid cid gr now).2.grades := by
        rw [hgrades]
        simp
      exact setGrade_ok_of_mem (s.setGrade sid cid gr now).2 sid cid gr2 now2
        { g0 with grade := some gr, date := now } hupd hpids.1 hpids.2

/-- Witness for C5: grading the registered pair (1, 1) in a concrete state
succeeds. -/
theorem setGrade_spec_witness :
    (demoState2.setGrade 1 1 GradeEnum.Excellent 7).1 = Except.ok () :=
  ((setGrade_spec demoState2 1 1 GradeEnum.Excellent 7).2
    ⟨demoGrade, by decide, by decide, by decide⟩).1

/-- `updateStatusInList` on a list whose prefix has no matching id rewrites
exactly the first matching student's status and keeps everything else. -/
lemma updateStatusInList_append (sid : Nat) (ns : StudentStatus)
    (l1 : List Student) (st0 : Student) (l2 : List Student)
    (hnot : ∀ x ∈ l1, ¬((x.id == sid) = true))
    (hp : (st0.id == sid) = true) :
    updateStatusInList (l1 ++ st0 :: l2) sid ns =
      l1 ++ { st0 with status := ns } :: l2 := by
  induction l1 with
  | nil => simp [updateStatusInList, hp]
  | cons x rest ih =>
    have hx : ¬((x.id == sid) = true) := hnot x (by simp)
    have ih2 := ih (fun y hy => hnot y (by simp [hy]))
    simp [updateStatusInList, hx, ih2]

/-- C6: for an existing student, `updateStudentStatus` fails with
`IllegalTransition` exactly when the current status is Expelled and the new
status is not Academic_Leave; in every other case (including transitions such
as Graduated to Active) the new status is written unconditionally onto the
first student with that id. -/
theorem updateStudentStatus_spec (s : UMS) (sid : Nat) (ns : StudentStatus)
    (st : Student)
    (h : s.students.find? (fun x => x.id == sid) = some st) :
    ((s.updateStudentStatus sid ns).1 = Except.error UMSError.IllegalTransition ↔
      (st.status = StudentStatus.Expelled ∧ ns ≠ StudentStatus.Academic_Leave)) ∧
    (¬(st.status = StudentStatus.Expelled ∧ ns ≠ StudentStatus.Academic_Leave) →
      (s.updateStudentStatus sid ns).1 = Except.ok () ∧
      (s.updateStudentStatus sid ns).2.courses = s.courses ∧
      (s.updateStudentStatus sid ns).2.grades = s.grades ∧
      ∃ l1 l2, s.students = l1 ++ st :: l2 ∧
        (∀ x ∈ l1, x.id ≠ sid) ∧
        (s.updateStudentStatus sid ns).2.students =
          l1 ++ { st with status := ns } :: l2) := by
  by_cases hexp : st.status = StudentStatus.Expelled ∧ ns ≠ StudentStatus.Academic_Leave
  · refine ⟨iff_of_true (by simp [UMS.updateStudentStatus, h, hexp]) hexp, ?_⟩
    intro hcon
    exact absurd hexp hcon
  · refine ⟨iff_of_false (by simp [UMS.updateStudentStatus, h, hexp]) hexp, ?_⟩
    intro _
    obtain ⟨hpb, l1, l2, hl, hpre⟩ := List.find?_eq_some.mp h
    have hnot1 : ∀ x ∈ l1, ¬((x.id == sid) = true) := by
      intro x hx
      have := hpre x hx
      simp only [Bool.not_eq_eq_eq_not, Bool.not_true] at this
      simp [this]
    have hset := updateStatusInList_append sid ns l1 st l2 hnot1 hpb
    refine ⟨by simp [UMS.updateStudentStatus, h, hexp],
      by simp [UMS.updateStudentStatus, h, hexp],
      by simp [UMS.updateStudentStatus, h, hexp],
      l1, l2, hl, ?_, ?_⟩
    · intro x hx
      have := hnot1 x hx
      simpa using this
    · have hbase : (s.updateStudentStatus sid ns).2.students =
          updateStatusInList s.students sid ns := by
        simp [UMS.updateStudentStatus, h, hexp]
      rw [hbase, hl]
      exact hset

/-- Witness for C6: student 2 is Expelled, so moving them to Active is
refused with `IllegalTransition`. -/
theorem updateStudentStatus_spec_witness :
    (demoState.updateStudentStatus 2 StudentStatus.Active).1 =
      Except.error UMSError.IllegalTransition :=
  ((updateStudentStatus_spec demoState 2 StudentStatus.Active stB (by decide)).1).mpr
    (by decide)

/-- C4: `calculateAverageGrade` returns 0 when the student has no record with
a non-null grade, and otherwise the arithmetic mean of the numeric values of
the student's non-null grades.  The result is a total rational value (no NaN,
no error path). -/
theorem calculateAverageGrade_spec (s : UMS) (sid : Nat) :
    s.calculateAverageGrade sid =
      if ((s.getStudentGrades sid).filterMap (fun g => g.grade)).length = 0 then 0
      else (((s.getStudentGrades sid).filterMap (fun g => g.grade)).map
              (fun x => (x.val : ℚ))).sum /
        (((s.getStudentGrades sid).filterMap (fun g => g.grade)).length : ℚ) := by
  have hfilter := filter_studentGraded s.grades sid
  have hvals := grade_values_eq (s.grades.filter (fun g => g.studentId == sid))
  have hlen :
      ((s.grades.filter (fun g => g.studentId == sid)).filter
          (fun g => g.grade.isSome)).length =
        ((s.grades.filter (fun g => g.studentId == sid)).filterMap
          (fun g => g.grade)).length := by
    have h1 := congrArg List.length hvals
    simpa using h1
  simp only [UMS.calculateAverageGrade, UMS.getStudentGrades, hfilter,
    foldl_gradeOrZero, hvals, hlen, zero_add]
  by_cases hz :
      ((s.grades.filter (fun g => g.studentId == sid)).filterMap
        (fun g => g.grade)).length = 0
  · simp [hz]
  · simp [hz]

/-- The identity-free fields of a student, for comparing a stored record with
the `enrollStudent` input it came from. -/
def studentToInput (st : Student) : StudentInput :=
  { fullName := st.fullName, faculty := st.faculty, year := st.year,
    status := st.status, enrollmentDate := st.enrollmentDate,
    groupNumber := st.groupNumber }

/-- A sequence of `enrollStudent` calls, collecting the returned records. -/
def enrollAll (s : UMS) (inputs : List StudentInput) : List Student × UMS :=
  match inputs with
  | [] => ([], s)
  | d :: rest =>
    let r := s.enrollStudent d
    let r2 := enrollAll r.2 rest
    (r.1 :: r2.1, r2.2)

/-- From any state, a run of `enrollStudent` calls returns records whose ids
are the consecutive integers starting at the current counter, whose other
fields copy the inputs verbatim, and which are appended to the student
collection in order. -/
lemma enrollAll_general (inputs : List StudentInput) : ∀ s : UMS,
    ((enrollAll s inputs).1.map Student.id =
      List.range' s.nextStudentId inputs.length) ∧
    ((enrollAll s inputs).1.map studentToInput = inputs) ∧
    ((enrollAll s inputs).2.students = s.students ++ (enrollAll s inputs).1) := by
  induction inputs with
  | nil => intro s; simp [enrollAll]
  | cons d rest ih =>
    intro s
    obtain ⟨h1, h2, h3⟩ := ih (s.enrollStudent d).2
    refine ⟨?_, ?_, ?_⟩
    · simp only [enrollAll, List.map_cons, List.length_cons, List.range'_succ]
      exact congrArg (fun t => s.nextStudentId :: t) h1
    · simp only [enrollAll, List.map_cons]
      rw [h2]
      rfl
    · simp only [enrollAll]
      rw [h3]
      simp [UMS.enrollStudent]

/-- C8: starting from the initial state, every `enrollStudent` call succeeds
and the returned records carry ids 1, 2, ..., n — strictly increasing with no
repeats — with the remaining fields taken verbatim from the inputs; the
returned records are exactly the stored collection. -/
theorem enrollStudent_ids_spec (inputs : List StudentInput) :
    ((enrollAll initUMS inputs).1.map Student.id = List.range' 1 inputs.length) ∧
    List.Chain' (fun a b => a < b) ((enrollAll initUMS inputs).1.map Student.id) ∧
    ((enrollAll initUMS inputs).1.map Student.id).Nodup ∧
    ((enrollAll initUMS inputs).1.map studentToInput = inputs) ∧
    ((enrollAll initUMS inputs).2.students = (enrollAll initUMS inputs).1) := by
  obtain ⟨h1, h2, h3⟩ := enrollAll_general inputs initUMS
  refine ⟨h1, ?_, ?_, h2, ?_⟩
  · rw [h1]
    exact (List.pairwise_lt_range' 1 inputs.length).chain'
  · rw [h1]
    exact List.nodup_range' 1 inputs.length
  · simpa [initUMS] using h3

/-- C9: nothing rejects a duplicate registration: with capacity for two more
records, registering the same (student, course) pair twice succeeds both
times, creates two grade records with the same composite key, and both count
against the course's capacity. -/
theorem registerForCourse_duplicate (s : UMS) (sid cid now1 now2 : Nat)
    (c : Course) (st : Student)
    (hc : s.courses.find? (fun x => x.id == cid) = some c)
    (hs : s.students.find? (fun x => x.id == sid) = some st)
    (hf : c.faculty = st.faculty)
    (hcap : (s.grades.filter (fun g => g.courseId == cid)).length + 1 < c.maxStudents) :
    (s.registerForCourse sid cid now1).1 = Except.ok () ∧
    ((s.registerForCourse sid cid now1).2.registerForCourse sid cid now2).1 =
      Except.ok () ∧
    (((s.registerForCourse sid cid now1).2.registerForCourse sid cid now2).2.grades.filter
        (fun g => g.studentId == sid && g.courseId == cid)).length =
      (s.grades.filter (fun g => g.studentId == sid && g.courseId == cid)).length + 2 ∧
    (((s.registerForCourse sid cid now1).2.registerForCourse sid cid now2).2.grades.filter
        (fun g => g.courseId == cid)).length =
      (s.grades.filter (fun g => g.courseId == cid)).length + 2 := by
  have hlt1 : (s.grades.filter (fun g => g.courseId == cid)).length < c.maxStudents :=
    Nat.lt_of_succ_lt hcap
  have hcap1 : ¬ (s.grades.filter (fun g => g.courseId == cid)).length ≥ c.maxStudents :=
    not_le.mpr hlt1
  have hstate1 : (s.registerForCourse sid cid now1).2 =
      { s with grades := s.grades ++
          [{ studentId := sid, courseId := cid, grade := none,
             date := now1, semester := c.semester }] } := by
    simp [UMS.registerForCourse, hc, hs, hf, hcap1]
  have hcap2 : ¬ ((s.grades ++
      [(⟨sid, cid, none, now1, c.semester⟩ : Grade)]).filter
        (fun g => g.courseId == cid)).length ≥ c.maxStudents := by
    simp only [List.filter_append, List.length_append, ge_iff_le, not_le]
    have hone : ([(⟨sid, cid, none, now1, c.semester⟩ : Grade)].filter
        (fun g => g.courseId == cid)).length = 1 := by simp
    rw [hone]
    exact hcap
  have hstate2 :
      ((s.registerForCourse sid cid now1).2.registerForCourse sid cid now2) =
      (Except.ok (),
        { s with grades := (s.grades ++
            [{ studentId := sid, courseId := cid, grade := none,
               date := now1, semester := c.semester }]) ++
            [{ studentId := sid, courseId := cid, grade := none,
               date := now2, semester := c.semester }] }) := by
    rw [hstate1]
    simp [UMS.registerForCourse, hc, hs, hf, hcap2, hcap]
  refine ⟨by simp [UMS.registerForCourse, hc, hs, hf, hcap1], ?_, ?_, ?_⟩
  · rw [hstate2]
  · rw [hstate2]
    simp [List.filter_append]
  · rw [hstate2]
    simp [List.filter_append]

/-- Witness for C9: both registrations of student 1 on course 1 (capacity 2)
succeed and both records count against capacity. -/
theorem registerForCourse_duplicate_witness :
    (demoState.registerForCourse 1 1 0).1 = Except.ok () ∧
    ((demoState.registerForCourse 1 1 0).2.registerForCourse 1 1 1).1 =
      Except.ok () ∧
    (((demoState.registerForCourse 1 1 0).2.registerForCourse 1 1 1).2.grades.filter
        (fun g => g.studentId == 1 && g.courseId == 1)).length =
      (demoState.grades.filter
        (fun g => g.studentId == 1 && g.courseId == 1)).length + 2 ∧
    (((demoState.registerForCourse 1 1 0).2.registerForCourse 1 1 1).2.grades.filter
        (fun g => g.courseId == 1)).length =
      (demoState.grades.filter (fun g => g.courseId == 1)).length + 2 :=
  registerForCourse_duplicate demoState 1 1 0 1 course1 stA
    (by decide) (by decide) (by decide) (by decide)

/-- Changing one student's status does not change which student `find?`
locates, nor the located student's id or faculty. -/
lemma find?_updateStatusInList (l : List Student) (sid0 sid : Nat)
    (ns : StudentStatus) :
    Option.map (fun st => (st.id, st.faculty))
        ((updateStatusInList l sid0 ns).find? (fun x => x.id == sid)) =
      Option.map (fun st => (st.id, st.faculty))
        (l.find? (fun x => x.id == sid)) := by
  induction l with
  | nil => rfl
  | cons st rest ih =>
    by_cases h0 : (st.id == sid0) = true
    · by_cases hs : (st.id == sid) = true
      · simp [updateStatusInList, h0, List.find?_cons, hs]
      · simp [updateStatusInList, h0, List.find?_cons, hs]
    · by_cases hs : (st.id == sid) = true
      · simp [updateStatusInList, h0, List.find?_cons, hs]
      · simp [updateStatusInList, h0, List.find?_cons, hs, ih]

/-- C10: neither `registerForCourse` nor `setGrade` consults the student's
status: overwriting any student's status (the only way the source ever
changes that field) leaves both operations' outcome and the resulting grade
records unchanged, whatever status is written. -/
theorem register_setGrade_status_independent (s : UMS) (sid0 : Nat)
    (ns : StudentStatus) (sid cid now : Nat) (gr : GradeEnum) :
    ((s.registerForCourse sid cid now).1 =
      (({ s with students := updateStatusInList s.students sid0 ns } :
          UMS).registerForCourse sid cid now).1 ∧
     (s.registerForCourse sid cid now).2.grades =
      (({ s with students := updateStatusInList s.students sid0 ns } :
          UMS).registerForCourse sid cid now).2.grades) ∧
    ((s.setGrade sid cid gr now).1 =
      (({ s with students := updateStatusInList s.students sid0 ns } :
          UMS).setGrade sid cid gr now).1 ∧
     (s.setGrade sid cid gr now).2.grades =
      (({ s with students := updateStatusInList s.students sid0 ns } :
          UMS).setGrade sid cid gr now).2.grades) := by
  constructor
  · have hmap := find?_updateStatusInList s.students sid0 sid ns
    cases hcrs : s.courses.find? (fun x => x.id == cid) with
    | none => simp [UMS.registerForCourse, hcrs]
    | some c =>
      cases hstu : s.students.find? (fun x => x.id == sid) with
      | none =>
        rw [hstu] at hmap
        have hnone : (updateStatusInList s.students sid0 ns).find?
            (fun x => x.id == sid) = none := by
          cases hx : (updateStatusInList s.students sid0 ns).find?
              (fun x => x.id == sid) with
          | none => rfl
          | some st2 => rw [hx] at hmap; simp at hmap
        simp [UMS.registerForCourse, hcrs, hstu, hnone]
      | some st =>
        rw [hstu] at hmap
        simp only [Option.map_some'] at hmap
        obtain ⟨st2, hfind2, hpair⟩ := Option.map_eq_some'.mp hmap
        have hfac : st2.faculty = st.faculty := congrArg Prod.snd hpair
        simp only [UMS.registerForCourse, hcrs, hstu, hfind2]
        by_cases hf : c.faculty ≠ st.faculty
        · have hf2 : c.faculty ≠ st2.faculty := by rw [hfac]; exact hf
          simp [hf, hf2]
        · have hf2 : ¬ c.faculty ≠ st2.faculty := by rw [hfac]; exact hf
          by_cases hcap :
              (s.grades.filter (fun g => g.courseId == cid)).length ≥ c.maxStudents
          · simp [hf, hf2, hcap]
          · simp [hf, hf2, hcap]
  · cases hfind : s.grades.find? (fun g => g.studentId == sid && g.courseId == cid) with
    | none => simp [UMS.setGrade, hfind]
    | some g0 => simp [UMS.setGrade, hfind]
